import Mathlib

/-!
Shallow embedding of the submission-processing pipeline of
`src/app/api/submit/route.ts` (Next.js route handler `POST`), together with
its helpers `uploadImageToCloudStorage`, `isSignatureBlank` and
`generateInspectionPDF`.

External effects (object-storage transfer, base64 decoding by `Buffer.from`,
PDF-library exceptions, mail delivery, the spreadsheet append) are modelled as
oracle fields of an environment record; everything the handler itself computes
is translated directly from the source.
-/

namespace Inspecao

/-- JavaScript truthiness of an environment variable (`process.env.X`):
`undefined` and the empty string are falsy. -/
def jsTruthy : Option String → Bool
  | none => false
  | some s => s != ""

/-- JavaScript `a || b` for a possibly-undefined string `a`:
`undefined` and `""` fall through to `b`. -/
def jsOr : Option String → String → String
  | none, b => b
  | some s, b => if s = "" then b else s

/-- JavaScript `s.startsWith(pre)`. -/
def jsStartsWith (s pre : String) : Bool :=
  pre.data.isPrefixOf s.data

/-- Whether `pat` occurs as a contiguous sublist of the second argument. -/
def containsSub (pat : List Char) : List Char → Bool
  | [] => pat.isEmpty
  | c :: rest => pat.isPrefixOf (c :: rest) || containsSub pat rest

/-- JavaScript `s.includes(pat)`. -/
def jsIncludes (s pat : String) : Bool :=
  containsSub pat.data s.data

/-- JavaScript `s.trim()` (whitespace stripped from both ends). -/
def jsTrim (s : String) : String :=
  String.mk (((s.data.dropWhile Char.isWhitespace).reverse.dropWhile Char.isWhitespace).reverse)

/-- Lowercase hex digit of a value below 16 (as produced by
`Buffer.prototype.toString('hex')`). -/
def hexDigit (n : Nat) : Char :=
  if n < 10 then Char.ofNat (48 + n) else Char.ofNat (87 + n)

/-- Two lowercase hex digits of one byte. -/
def hexOfByte (b : Nat) : List Char :=
  [hexDigit ((b % 256) / 16), hexDigit ((b % 256) % 16)]

/-- The lowercase hex rendering of a byte buffer, as a character list
(`buffer.toString('hex')`). -/
def toHexChars (bs : List Nat) : List Char :=
  (bs.map hexOfByte).flatten

/-- Number of matches of the global regex `/ffffff/g`: non-overlapping
occurrences of `ffffff`, scanning left to right. -/
def countFFFFFF : List Char → Nat
  | 'f' :: 'f' :: 'f' :: 'f' :: 'f' :: 'f' :: rest => countFFFFFF rest + 1
  | _ :: rest => countFFFFFF rest
  | [] => 0

/-- JavaScript `base64Data.substring(base64Data.indexOf(',') + 1)`: everything
after the first comma, or the whole string when there is no comma
(`indexOf` returns `-1`, so `substring(0)` is the whole string). -/
def dropThroughFirstComma : List Char → Option (List Char)
  | [] => none
  | ',' :: rest => some rest
  | _ :: rest => dropThroughFirstComma rest

/-- See `dropThroughFirstComma`. -/
def dataAfterComma (s : String) : String :=
  match dropThroughFirstComma s.data with
  | some rest => String.mk rest
  | none => s

/-- `isSignatureBlank` (route.ts lines 138-169).  The base64 decoding
performed by `Buffer.from(imageData, 'base64')` inside the `try` block is an
external library call, modelled by the oracle `decode`; `decode _ = none`
models the call throwing, which the source catches and maps to `false`
(fail open).  The white-pixel fraction `(matches * 6) / totalLength > 0.95`
is compared exactly (0.95 = 19/20): it holds iff
`totalLength * 19 < matches * 6 * 20`. -/
def isSignatureBlank (decode : String → Option (List Nat)) (base64Data : String) : Bool :=
  if (base64Data == "") || !(jsStartsWith base64Data "data:image") then
    true
  else
    match decode (dataAfterComma base64Data) with
    | none => false
    | some buffer =>
      if buffer.length < 500 then
        true
      else
        let bufferString := toHexChars buffer
        let whitePixelMatches := countFFFFFF bufferString
        let totalLength := bufferString.length
        decide (totalLength * 19 < whitePixelMatches * 6 * 20) || decide (buffer.length < 1000)

/-- Mirrors interface `HeaderData` (route.ts lines 8-18). -/
structure HeaderData where
  departamento : String
  encarregado : String
  responsavelQSMS : String
  gerenteContrato : String
  unidade : String
  data : String
  hora : String
  «local» : String
  emailCompanhia : String
deriving Repr, DecidableEq

/-- Mirrors interface `Participant` (route.ts lines 20-23). -/
structure Participant where
  nome : String
  funcao : String
deriving Repr, DecidableEq

/-- Mirrors interface `InspectionItem` (route.ts lines 25-34); `foto` is the
optional base64 data URL. -/
structure InspectionItem where
  id : String
  item : Nat
  fato : String
  recomendacoes : String
  prazo : String
  responsavel : String
  conclusao : String
  foto : Option String
deriving Repr, DecidableEq

/-- Mirrors interface `ConclusionData` (route.ts lines 36-38). -/
structure ConclusionData where
  conclusaoGeral : String
deriving Repr, DecidableEq

/-- Mirrors interface `Signatures` (route.ts lines 40-43). -/
structure Signatures where
  responsavelInspecao : String
  responsavelUnidade : String
deriving Repr, DecidableEq

/-- Mirrors interface `RequestBody` (route.ts lines 45-51). -/
structure RequestBody where
  headerData : HeaderData
  participants : List Participant
  inspectionItems : List InspectionItem
  conclusionData : ConclusionData
  signatures : Signatures
deriving Repr, DecidableEq

/-- Mirrors interface `UploadResult` (route.ts lines 53-57). -/
structure UploadResult where
  url : String
  success : Bool
  error : Option String
deriving Repr, DecidableEq

/-- The shapes of the caught value in the `catch` of
`uploadImageToCloudStorage` (route.ts lines 119-126): an `Error` instance, a
non-null object (with optional `errors[0].message`, optional `message`, and
its `JSON.stringify` rendering), or anything else. -/
inductive JsError where
  | jsError (message : String)
  | objectError (firstErrorMessage : Option String) (message : Option String) (json : String)
  | otherError
deriving Repr, DecidableEq

/-- The error-message extraction of the `catch` block (route.ts lines
120-126): `Error` instances yield their message; objects yield
`errors?.[0]?.message || message || JSON.stringify(error)`; anything else
keeps the default message. -/
def uploadErrorMessage : JsError → String
  | .jsError m => m
  | .objectError first msg json => jsOr first (jsOr msg json)
  | .otherError => "Erro desconhecido durante o upload."

/-- Environment of `uploadImageToCloudStorage`: the two gating configuration
variables and the object-storage transfer `file.save` (route.ts line 105),
an external call which either completes or throws a `JsError`. -/
structure CloudEnv where
  projectId : Option String
  bucketName : Option String
  save : String → Except JsError Unit

/-- `uploadImageToCloudStorage` (route.ts lines 62-133).  Returns the
`UploadResult` together with the number of storage-transfer calls made.
The input guard, the configuration guard, the public-URL formula of line 114
and the `catch` mapping are translated directly; the buffer decoding of
lines 94-96 only feeds the transfer payload and is not observable here. -/
def uploadImageToCloudStorage (env : CloudEnv) (base64Data fileName : String) :
    UploadResult × Nat :=
  if (base64Data == "") || !(jsStartsWith base64Data "data:image") then
    ({ url := "", success := false, error := some "Dados de imagem inválidos ou ausentes" }, 0)
  else if !(jsTruthy env.projectId) || !(jsTruthy env.bucketName) then
    ({ url := "", success := false,
       error := some "Configurações do Google Cloud Storage não encontradas nas variáveis de ambiente" }, 0)
  else
    match env.save fileName with
    | .ok _ =>
      ({ url := "https://storage.googleapis.com/" ++ env.bucketName.getD "" ++ "/" ++ fileName,
         success := true, error := none }, 1)
    | .error e =>
      ({ url := "", success := false, error := some (uploadErrorMessage e) }, 1)

/-- The per-signature blank classification of route.ts lines 476-477:
the literal fallback string `Não assinado` short-circuits, otherwise
`isSignatureBlank` decides. -/
def signatureIsBlank (decode : String → Option (List Nat)) (sig : String) : Bool :=
  (sig == "Não assinado") || isSignatureBlank decode sig

/-- The conditional signature upload of route.ts lines 490-496.  Returns the
`UploadResult` together with the number of `uploadImageToCloudStorage`
invocations (0 or 1). -/
def signatureUploadResult (cloud : CloudEnv) (decode : String → Option (List Nat))
    (sig fileName : String) : UploadResult × Nat :=
  if signatureIsBlank decode sig then
    ({ url := "", success := true, error := some "Assinatura não fornecida" }, 0)
  else
    ((uploadImageToCloudStorage cloud sig fileName).1, 1)

/-- The signature cell and PDF value resolution of route.ts lines 514-534:
first component is the sheet cell (`signatureLink1`/`signatureLink2`), second
is the value stored into `signatureUrls` for the PDF (initialised to
`Não assinado` and only overwritten in the non-blank branch). -/
def signatureCell (isBlank : Bool) (result : UploadResult) : String × String :=
  if isBlank then
    ("Não assinado", "Não assinado")
  else if result.success ∧ result.url ≠ "" then
    ("=HYPERLINK(\"" ++ result.url ++ "\"; \"Ver Assinatura\")", result.url)
  else
    ("❌ Falha no upload: " ++ jsOr result.error "Erro desconhecido",
     "❌ Falha no upload: " ++ jsOr result.error "Erro desconhecido")

/-- Object key of the first signature (route.ts line 492). -/
def signatureFileName1 (inspectionId : String) : String :=
  "assinaturas/Assinatura_Inspecao_" ++ inspectionId ++ ".png"

/-- Object key of the second signature (route.ts line 496). -/
def signatureFileName2 (inspectionId : String) : String :=
  "assinaturas/Assinatura_Unidade_" ++ inspectionId ++ ".png"

/-- One signature's processing, as sequenced by the handler before the
per-item loop: blank classification, conditional upload, cell resolution.
Components: sheet cell text, resolved PDF value, number of uploader
invocations. -/
def signaturePipeline (cloud : CloudEnv) (decode : String → Option (List Nat))
    (sig fileName : String) : String × String × Nat :=
  let isBlank := signatureIsBlank decode sig
  let result := signatureUploadResult cloud decode sig fileName
  ((signatureCell isBlank result.1).1, (signatureCell isBlank result.1).2, result.2)

/-- JavaScript truthiness test `item.foto && item.foto !== 'Nenhuma'`
(route.ts lines 548 and 560): `undefined` and `""` are falsy. -/
def fotoProvided : Option String → Bool
  | none => false
  | some s => (s != "") && (s != "Nenhuma")

/-- Object key of one item's evidence photo (route.ts line 549); `index` is
the 0-based position in `inspectionItems`. -/
def evidenceFileName (inspectionId : String) (index : Nat) : String :=
  "evidencias/Evidencia_" ++ inspectionId ++ "_Item_" ++ toString (index + 1) ++ ".png"

/-- The conditional evidence upload of route.ts lines 546-550.  Returns the
`UploadResult` together with the number of `uploadImageToCloudStorage`
invocations (0 or 1). -/
def itemPhotoResult (cloud : CloudEnv) (inspectionId : String) (index : Nat)
    (item : InspectionItem) : UploadResult × Nat :=
  if fotoProvided item.foto then
    ((uploadImageToCloudStorage cloud (item.foto.getD "") (evidenceFileName inspectionId index)).1, 1)
  else
    ({ url := "", success := true, error := some "Nenhuma foto fornecida" }, 0)

/-- The evidence cell and PDF value resolution of route.ts lines 558-570:
first component is `evidenceText`, second is `evidenceUrls[index]`. -/
def evidenceCell (item : InspectionItem) (photoResult : UploadResult) : String × String :=
  if fotoProvided item.foto then
    if photoResult.success ∧ photoResult.url ≠ "" then
      ("=HYPERLINK(\"" ++ photoResult.url ++ "\"; \"Ver Evidência\")", photoResult.url)
    else
      ("❌ Falha no upload: " ++ jsOr photoResult.error "Erro desconhecido",
       "❌ Falha no upload: " ++ jsOr photoResult.error "Erro desconhecido")
  else
    ("Nenhuma", "Nenhuma")

/-- `participants.map(p => p.nome).join(', ')` (route.ts lines 468-469). -/
def joinComma (xs : List String) : String :=
  String.intercalate ", " xs

/-- One per-item sheet row (route.ts lines 572-594).  The `|| ''` fallbacks
of the source are identities on the typed string fields and are dropped. -/
def itemRow (inspectionId : String) (hd : HeaderData)
    (participantNames participantFunctions : String) (item : InspectionItem)
    (evidenceText conclusaoGeral sig1 sig2 : String) : List String :=
  [inspectionId, hd.data, hd.hora, hd.departamento, hd.encarregado, hd.responsavelQSMS,
   hd.gerenteContrato, hd.unidade, hd.«local», hd.emailCompanhia, participantNames,
   participantFunctions, item.fato, item.recomendacoes, item.prazo, item.responsavel,
   item.conclusao, evidenceText, conclusaoGeral, sig1, sig2]

/-- The placeholder row pushed for item-less submissions
(route.ts lines 600-610). -/
def placeholderRow (inspectionId : String) (hd : HeaderData)
    (participantNames participantFunctions conclusaoGeral sig1 sig2 : String) : List String :=
  [inspectionId, hd.data, hd.hora, hd.departamento, hd.encarregado, hd.responsavelQSMS,
   hd.gerenteContrato, hd.unidade, hd.«local», hd.emailCompanhia, participantNames,
   participantFunctions, "N/A", "Nenhum item de inspeção foi adicionado.", "", "", "",
   "Nenhuma", conclusaoGeral, sig1, sig2]

/-- The `inspectionItems.map` of route.ts lines 539-596: per item, conditional
evidence upload, evidence cell resolution, row construction.  The signature
cells are taken as already-resolved inputs, as in the source. -/
def buildItemRows (cloud : CloudEnv) (inspectionId : String) (hd : HeaderData)
    (participantNames participantFunctions : String) (items : List InspectionItem)
    (conclusaoGeral sig1 sig2 : String) : List (List String) :=
  items.enum.map fun p =>
    let photoResult := (itemPhotoResult cloud inspectionId p.1 p.2).1
    itemRow inspectionId hd participantNames participantFunctions p.2
      (evidenceCell p.2 photoResult).1 conclusaoGeral sig1 sig2

/-- The full batch handed to the spreadsheet append (route.ts lines 466-610):
participant joins, one resolution per signature hoisted above the loop, the
per-item rows, and the placeholder row when no item row was built. -/
def rowsToAppend (cloud : CloudEnv) (decode : String → Option (List Nat))
    (inspectionId : String) (body : RequestBody) : List (List String) :=
  let participantNames := joinComma (body.participants.map Participant.nome)
  let participantFunctions := joinComma (body.participants.map Participant.funcao)
  let s1 := signaturePipeline cloud decode body.signatures.responsavelInspecao
      (signatureFileName1 inspectionId)
  let s2 := signaturePipeline cloud decode body.signatures.responsavelUnidade
      (signatureFileName2 inspectionId)
  let itemRows := buildItemRows cloud inspectionId body.headerData participantNames
      participantFunctions body.inspectionItems body.conclusionData.conclusaoGeral s1.1 s2.1
  if itemRows.isEmpty then
    [placeholderRow inspectionId body.headerData participantNames participantFunctions
       body.conclusionData.conclusaoGeral s1.1 s2.1]
  else
    itemRows

/-- `INSPEC-` followed by `Date.now()` (route.ts line 467). -/
def inspectionIdOf (nowMs : Nat) : String :=
  "INSPEC-" ++ toString nowMs

/-- The response envelope of the handler: `NextResponse.json({message,
inspectionId}, 200)` on line 646 or `NextResponse.json({error}, 500)` on
line 655. -/
inductive ApiResponse where
  | ok (message inspectionId : String)
  | err (error : String)
deriving Repr, DecidableEq

/-- Environment of the handler `POST`: the gating configuration variables,
the cloud-storage environment, the base64 decode oracle used by
`isSignatureBlank`, whether `generateInspectionPDF` throws (it is a plain
call on line 616, unguarded inside the handler's `try`; `some msg` models a
PDF-library exception with message `msg`), whether the mail delivery
succeeds (`sendEmailWithPDF` swallows its own errors and returns a boolean,
route.ts lines 317-349), the outcome of the spreadsheet append call of line
633 (which may throw), and `Date.now()`. -/
structure SubmitEnv where
  privateKey : Option String
  clientEmail : Option String
  sheetId : Option String
  cloud : CloudEnv
  decode : String → Option (List Nat)
  renderThrows : Option String
  emailOk : Bool
  appendResult : Except String Unit
  nowMs : Nat

/-- Observable outcome of one handler run: the JSON response, the row batch
built for the append (empty when a configuration error aborts earlier), and
whether the append call and the mail delivery were attempted. -/
structure PostOutcome where
  response : ApiResponse
  rows : List (List String)
  appendCalled : Bool
  emailAttempted : Bool
deriving Repr, DecidableEq

/-- The handler `POST` (route.ts lines 408-657), after a successful JSON
parse.  Missing `GOOGLE_PRIVATE_KEY`, `GOOGLE_CLIENT_EMAIL` or
`GOOGLE_SHEET_ID` throw and are caught by the handler's `catch`, which
returns the 500 envelope with the error's message.  The storage
connectivity test of lines 449-455 only logs and is omitted.  Signature
classification/upload, the per-item loop and the placeholder fallback are
`rowsToAppend`.  `generateInspectionPDF` runs before the e-mail and the
append; an exception there propagates to the `catch`.  The e-mail is
attempted when the trimmed recipient is non-empty and its boolean result is
only logged.  The append either succeeds (200 envelope with the inspection
id) or throws (500 envelope with the thrown message). -/
def POST (env : SubmitEnv) (body : RequestBody) : PostOutcome :=
  if !(jsTruthy env.privateKey) then
    { response := .err "GOOGLE_PRIVATE_KEY não encontrada", rows := [],
      appendCalled := false, emailAttempted := false }
  else if !(jsTruthy env.clientEmail) then
    { response := .err "GOOGLE_CLIENT_EMAIL não encontrada", rows := [],
      appendCalled := false, emailAttempted := false }
  else if !(jsTruthy env.sheetId) then
    { response := .err "GOOGLE_SHEET_ID não encontrada", rows := [],
      appendCalled := false, emailAttempted := false }
  else
    let inspectionId := inspectionIdOf env.nowMs
    let rows := rowsToAppend env.cloud env.decode inspectionId body
    match env.renderThrows with
    | some msg =>
      { response := .err msg, rows := rows, appendCalled := false, emailAttempted := false }
    | none =>
      let emailAttempted := jsTrim body.headerData.emailCompanhia != ""
      match env.appendResult with
      | .ok _ =>
        { response := .ok "Dados inseridos com sucesso" inspectionId, rows := rows,
          appendCalled := true, emailAttempted := emailAttempted }
      | .error msg =>
        { response := .err msg, rows := rows, appendCalled := true,
          emailAttempted := emailAttempted }

/-- A rendered reference in the PDF: a clickable link or plain text. -/
inductive PdfBlock where
  | linkBlock (label url : String)
  | textBlock (text : String)
deriving Repr, DecidableEq

/-- The evidence rendering decision of `generateInspectionPDF` (route.ts
lines 268-277): a resolved URL that is truthy, not the `Nenhuma` sentinel
and not a failure marker becomes a link; a truthy failure marker is printed
as text; otherwise the `Nenhuma` sentinel is printed.  `none` models the
JavaScript `undefined` of a missing `evidenceUrls[index]` entry. -/
def pdfEvidenceBlock (evidenceUrl : Option String) : PdfBlock :=
  match evidenceUrl with
  | none => .textBlock "Nenhuma"
  | some u =>
    if (u != "") && (u != "Nenhuma") && !(jsIncludes u "❌") then
      .linkBlock "Ver Evidencia" u
    else if (u != "") && jsIncludes u "❌" then
      .textBlock u
    else
      .textBlock "Nenhuma"

/-- One paragraph handed to `addText` or `addLink` in
`generateInspectionPDF`, abstracted to what the cursor arithmetic sees: the
number of wrapped lines `splitTextToSize` produced, the font size, and
whether it is a link block (`addLink`, which runs the same per-line
pagination check as `addText`, route.ts lines 196-204 and 214-224). -/
structure PdfLayoutBlock where
  lineCount : Nat
  fontSize : ℚ
  isLink : Bool
deriving Repr, DecidableEq

/-- One cursor-advancing step of the layout: a wrapped line (pagination
checked before placement, then `yPosition += fontSize * 0.4`) or an
unconditional gap (the `yPosition += 5` after each block, and the manual
`yPosition += 10` separators). -/
inductive LayoutOp where
  | lineOp (height : ℚ)
  | gapOp (height : ℚ)
deriving Repr, DecidableEq

/-- The ops of one block: its wrapped lines, then the trailing `+= 5`. -/
def blockOps (b : PdfLayoutBlock) : List LayoutOp :=
  List.replicate b.lineCount (LayoutOp.lineOp (b.fontSize * (2/5))) ++ [LayoutOp.gapOp 5]

/-- The ops of a block sequence. -/
def docOps (blocks : List PdfLayoutBlock) : List LayoutOp :=
  (blocks.map blockOps).flatten

/-- Layout state: the number of pages so far, the vertical cursor, and the
y position of every line placed so far. -/
structure LayoutState where
  pageCount : Nat
  y : ℚ
  placedYs : List ℚ
deriving Repr, DecidableEq

/-- One step of the cursor algorithm (route.ts lines 197-204): before a line
is placed, if `yPosition > pageHeight - 20` then `doc.addPage()` and
`yPosition = 20`; the line is placed at the current cursor, which then
advances by the line height.  Gaps advance the cursor unconditionally. -/
def layoutStep (pageHeight : ℚ) (st : LayoutState) : LayoutOp → LayoutState
  | .lineOp h =>
    if st.y > pageHeight - 20 then
      { pageCount := st.pageCount + 1, y := 20 + h, placedYs := st.placedYs ++ [20] }
    else
      { pageCount := st.pageCount, y := st.y + h, placedYs := st.placedYs ++ [st.y] }
  | .gapOp h => { st with y := st.y + h }

/-- The initial state: `jsPDF` starts with one page and `yPosition = 20`
(route.ts line 185). -/
def initialLayout : LayoutState :=
  { pageCount := 1, y := 20, placedYs := [] }

/-- Running the cursor algorithm over a block sequence. -/
def renderLayout (pageHeight : ℚ) (blocks : List PdfLayoutBlock) : LayoutState :=
  (docOps blocks).foldl (layoutStep pageHeight) initialLayout

/-- Cursor advance of one op. -/
def opHeight : LayoutOp → ℚ
  | .lineOp h => h
  | .gapOp h => h

/-- Total cursor advance of a list of ops. -/
def opsHeight (ops : List LayoutOp) : ℚ :=
  (ops.map opHeight).sum

/-! Sample environments and payloads used by the concrete instantiations. -/

/-- Cloud environment with configuration present and a transfer that
always completes. -/
def okCloudEnv : CloudEnv :=
  { projectId := some "proj", bucketName := some "bucket", save := fun _ => .ok () }

/-- Cloud environment whose project id is missing. -/
def noConfigCloudEnv : CloudEnv :=
  { projectId := none, bucketName := some "bucket", save := fun _ => .ok () }

/-- Base64 decode oracle that always throws. -/
def throwDecode : String → Option (List Nat) :=
  fun _ => none

/-- Base64 decode oracle returning a 504-byte all-white buffer. -/
def whiteDecode : String → Option (List Nat) :=
  fun _ => some (List.replicate 504 255)

/-- Sample header. -/
def sampleHeader : HeaderData :=
  { departamento := "dep", encarregado := "enc", responsavelQSMS := "qsms",
    gerenteContrato := "ger", unidade := "uni", data := "2024-05-01", hora := "10:00",
    «local» := "Unit A", emailCompanhia := "mail@x" }

/-- Sample inspection item without a photo, numbered 7. -/
def sampleItemNoFoto : InspectionItem :=
  { id := "i1", item := 7, fato := "fato observado", recomendacoes := "rec",
    prazo := "2024-06-01", responsavel := "resp", conclusao := "conc", foto := none }

/-- Sample inspection item with a photo. -/
def sampleFotoItem : InspectionItem :=
  { id := "i2", item := 2, fato := "f", recomendacoes := "r", prazo := "p",
    responsavel := "rp", conclusao := "c", foto := some "data:image/png;base64,AAAA" }

/-- Sample payload without inspection items. -/
def sampleBodyNoItems : RequestBody :=
  { headerData := sampleHeader, participants := [{ nome := "p1", funcao := "f1" }],
    inspectionItems := [], conclusionData := { conclusaoGeral := "geral" },
    signatures := { responsavelInspecao := "Não assinado",
                    responsavelUnidade := "Não assinado" } }

/-- Sample payload with one inspection item. -/
def sampleBodyOneItem : RequestBody :=
  { sampleBodyNoItems with inspectionItems := [sampleItemNoFoto] }

/-- Sample payload with two inspection items. -/
def sampleBodyTwoItems : RequestBody :=
  { sampleBodyNoItems with inspectionItems := [sampleItemNoFoto, sampleFotoItem] }

/-! Helper lemmas. -/

/-- A string starting with the embedded-image prefix is non-empty. -/
lemma beq_empty_false_of_dataImage {s : String}
    (h : jsStartsWith s "data:image" = true) : (s == "") = false := by
  cases hs : s == ""
  · rfl
  · have : s = "" := by simpa using hs
    subst this
    exact absurd h (by decide)

/-- With no inspection items, the batch is the single placeholder row. -/
lemma rowsToAppend_nil (cloud : CloudEnv) (decode : String → Option (List Nat))
    (inspectionId : String) (body : RequestBody) (h : body.inspectionItems = []) :
    rowsToAppend cloud decode inspectionId body =
      [placeholderRow inspectionId body.headerData
        (joinComma (body.participants.map Participant.nome))
        (joinComma (body.participants.map Participant.funcao))
        body.conclusionData.conclusaoGeral
        (signaturePipeline cloud decode body.signatures.responsavelInspecao
          (signatureFileName1 inspectionId)).1
        (signaturePipeline cloud decode body.signatures.responsavelUnidade
          (signatureFileName2 inspectionId)).1] := by
  simp [rowsToAppend, buildItemRows, h]

/-- With at least one inspection item, the batch is the per-item map. -/
lemma rowsToAppend_eq_map (cloud : CloudEnv) (decode : String → Option (List Nat))
    (inspectionId : String) (body : RequestBody) (h : body.inspectionItems ≠ []) :
    rowsToAppend cloud decode inspectionId body =
      body.inspectionItems.enum.map (fun p =>
        itemRow inspectionId body.headerData
          (joinComma (body.participants.map Participant.nome))
          (joinComma (body.participants.map Participant.funcao)) p.2
          (evidenceCell p.2 (itemPhotoResult cloud inspectionId p.1 p.2).1).1
          body.conclusionData.conclusaoGeral
          (signaturePipeline cloud decode body.signatures.responsavelInspecao
            (signatureFileName1 inspectionId)).1
          (signaturePipeline cloud decode body.signatures.responsavelUnidade
            (signatureFileName2 inspectionId)).1) := by
  simp [rowsToAppend, buildItemRows, h]

/-! Claim theorems. -/

/-- C4: the blank-signature classifier returns true for every input not
beginning with the embedded-image prefix (which covers the missing/empty
input); otherwise, letting `buffer` be the decoded bytes and `toHexChars
buffer` the lowercase hex rendering, it returns true iff the byte length is
under 500, or the fraction of the hex string covered by non-overlapping
`ffffff` occurrences exceeds 0.95 (compared exactly as `19 * length <
matches * 6 * 20`), or the byte length is below 1000; and when decoding
throws it returns false (fail open). -/
theorem isSignatureBlank_spec (decode : String → Option (List Nat)) (s : String) :
    (jsStartsWith s "data:image" = false → isSignatureBlank decode s = true) ∧
    (jsStartsWith s "data:image" = true →
      (decode (dataAfterComma s) = none → isSignatureBlank decode s = false) ∧
      ∀ buffer, decode (dataAfterComma s) = some buffer →
        (isSignatureBlank decode s = true ↔
          buffer.length < 500 ∨
          (toHexChars buffer).length * 19 < countFFFFFF (toHexChars buffer) * 6 * 20 ∨
          buffer.length < 1000)) := by
  constructor
  · intro h
    simp [isSignatureBlank, h]
  · intro h
    have hne := beq_empty_false_of_dataImage h
    constructor
    · intro hd
      simp [isSignatureBlank, h, hne, hd]
    · intro buffer hd
      by_cases h500 : buffer.length < 500
      · simp [isSignatureBlank, h, hne, hd, h500]
      · simp only [isSignatureBlank, h, hne, hd, h500]
        simp [h500]

set_option maxRecDepth 100000 in
/-- Witness for C4: a 504-byte all-white buffer is classified blank through
the white-pixel fraction. -/
theorem isSignatureBlank_spec_witness :
    isSignatureBlank whiteDecode "data:image/png;base64,AAAA" = true := by
  have h := (isSignatureBlank_spec whiteDecode "data:image/png;base64,AAAA").2 (by decide)
  exact (h.2 (List.replicate 504 255) rfl).mpr (Or.inr (Or.inl (by decide)))

/-- C5: a signature classified blank never reaches the uploader — the
pipeline performs zero uploader invocations for it — and an uploader
invocation for a signature happens only when it is classified non-blank. -/
theorem blank_signature_never_uploaded (cloud : CloudEnv)
    (decode : String → Option (List Nat)) (sig fileName : String) :
    (signatureIsBlank decode sig = true →
      (signaturePipeline cloud decode sig fileName).2.2 = 0) ∧
    ((signaturePipeline cloud decode sig fileName).2.2 ≠ 0 →
      signatureIsBlank decode sig = false) := by
  constructor
  · intro h
    simp [signaturePipeline, signatureUploadResult, h]
  · intro h
    cases hb : signatureIsBlank decode sig
    · rfl
    · exact absurd (by simp [signaturePipeline, signatureUploadResult, hb]) h

/-- Witness for C5: the unsigned-sentinel signature triggers no uploader
invocation. -/
theorem blank_signature_never_uploaded_witness :
    (signaturePipeline okCloudEnv throwDecode "Não assinado" (signatureFileName1 "ID0")).2.2 = 0 :=
  (blank_signature_never_uploaded okCloudEnv throwDecode "Não assinado"
    (signatureFileName1 "ID0")).1 (by decide)

/-- C6: the uploader always returns a tagged outcome (every failure carries
an error message); for an input with the embedded-image prefix, a missing
project id or bucket name yields the configuration failure with zero
storage-transfer calls; and a transfer error yields a failure carrying the
extracted most-specific message instead of the raw error. -/
theorem uploader_never_raises (env : CloudEnv) (base64Data fileName : String) :
    ((uploadImageToCloudStorage env base64Data fileName).1.success = false →
      (uploadImageToCloudStorage env base64Data fileName).1.error.isSome = true) ∧
    (jsStartsWith base64Data "data:image" = true →
      (jsTruthy env.projectId = false ∨ jsTruthy env.bucketName = false) →
      uploadImageToCloudStorage env base64Data fileName =
        ({ url := "", success := false,
           error := some "Configurações do Google Cloud Storage não encontradas nas variáveis de ambiente" }, 0)) ∧
    (∀ e, jsStartsWith base64Data "data:image" = true →
      jsTruthy env.projectId = true → jsTruthy env.bucketName = true →
      env.save fileName = .error e →
      (uploadImageToCloudStorage env base64Data fileName).1 =
        { url := "", success := false, error := some (uploadErrorMessage e) }) := by
  refine ⟨?_, ?_, ?_⟩
  · intro h
    by_cases g1 : ((base64Data == "") || !(jsStartsWith base64Data "data:image")) = true
    · simp [uploadImageToCloudStorage, g1]
    · by_cases g2 : (!(jsTruthy env.projectId) || !(jsTruthy env.bucketName)) = true
      · simp [uploadImageToCloudStorage, g1, g2]
      · cases hsave : env.save fileName with
        | ok u =>
          simp [uploadImageToCloudStorage, g1, g2, hsave] at h
        | error e =>
          simp [uploadImageToCloudStorage, g1, g2, hsave]
  · intro hpre hcfg
    have hne := beq_empty_false_of_dataImage hpre
    have g2 : (!(jsTruthy env.projectId) || !(jsTruthy env.bucketName)) = true := by
      rcases hcfg with hcfg | hcfg <;> simp [hcfg]
    simp [uploadImageToCloudStorage, hpre, hne, g2]
  · intro e hpre hp hb hsave
    have hne := beq_empty_false_of_dataImage hpre
    simp [uploadImageToCloudStorage, hpre, hne, hp, hb, hsave]

/-- Witness for C6: missing project id yields the configuration failure
without a transfer call. -/
theorem uploader_never_raises_witness :
    uploadImageToCloudStorage noConfigCloudEnv "data:image/png;base64,AAAA" "f.png" =
      ({ url := "", success := false,
         error := some "Configurações do Google Cloud Storage não encontradas nas variáveis de ambiente" }, 0) :=
  (uploader_never_raises noConfigCloudEnv "data:image/png;base64,AAAA" "f.png").2.1
    (by decide) (Or.inl (by decide))

/-- C7: when an artifact upload succeeds with URL `u`, the row cell is the
hyperlink formula wrapping exactly `u` and the value resolved for the
document renderer is exactly `u`, for evidence photos and for non-blank
signatures alike. -/
theorem url_round_trip (item : InspectionItem) (r : UploadResult) (u : String)
    (isBlank : Bool) :
    (fotoProvided item.foto = true → r.success = true → r.url = u → u ≠ "" →
      evidenceCell item r = ("=HYPERLINK(\"" ++ u ++ "\"; \"Ver Evidência\")", u)) ∧
    (isBlank = false → r.success = true → r.url = u → u ≠ "" →
      signatureCell isBlank r = ("=HYPERLINK(\"" ++ u ++ "\"; \"Ver Assinatura\")", u)) := by
  constructor
  · intro hf hs hu hne
    subst hu
    simp [evidenceCell, hf, hs, hne]
  · intro hb hs hu hne
    subst hb hu
    simp [signatureCell, hs, hne]

/-- Witness for C7: a successful evidence upload round-trips its URL. -/
theorem url_round_trip_witness :
    evidenceCell sampleFotoItem
      { url := "https://storage.googleapis.com/bucket/f.png", success := true, error := none } =
      ("=HYPERLINK(\"https://storage.googleapis.com/bucket/f.png\"; \"Ver Evidência\")",
       "https://storage.googleapis.com/bucket/f.png") :=
  (url_round_trip sampleFotoItem
    { url := "https://storage.googleapis.com/bucket/f.png", success := true, error := none }
    "https://storage.googleapis.com/bucket/f.png" false).1 (by decide) rfl rfl (by decide)

/-- C10: an item whose photo is missing, empty, or the `Nenhuma` sentinel
triggers no uploader invocation; its evidence cell and its resolved PDF
reference are both the `Nenhuma` sentinel; and the renderer prints that
sentinel as plain text, never as a link. -/
theorem missing_photo_no_upload (cloud : CloudEnv) (inspectionId : String) (index : Nat)
    (item : InspectionItem)
    (h : item.foto = none ∨ item.foto = some "" ∨ item.foto = some "Nenhuma") :
    (itemPhotoResult cloud inspectionId index item).2 = 0 ∧
    (evidenceCell item (itemPhotoResult cloud inspectionId index item).1).1 = "Nenhuma" ∧
    (evidenceCell item (itemPhotoResult cloud inspectionId index item).1).2 = "Nenhuma" ∧
    pdfEvidenceBlock (some "Nenhuma") = PdfBlock.textBlock "Nenhuma" := by
  have hf : fotoProvided item.foto = false := by
    rcases h with h | h | h <;> simp [fotoProvided, h]
  refine ⟨?_, ?_, ?_, by decide⟩ <;> simp [itemPhotoResult, evidenceCell, hf]

/-- Witness for C10: an item without a photo triggers no uploader
invocation. -/
theorem missing_photo_no_upload_witness :
    (itemPhotoResult okCloudEnv "ID0" 0 sampleItemNoFoto).2 = 0 :=
  (missing_photo_no_upload okCloudEnv "ID0" 0 sampleItemNoFoto (Or.inl rfl)).1

/-- C2: a submission with zero inspection items produces exactly one
placeholder row, carrying the header, participant and signature data, with
the item-specific cells holding the fixed sentinels — among them the
no-items sentinel and the `Nenhuma` sentinel in the evidence cell — so the
append batch is never empty. -/
theorem empty_items_placeholder (cloud : CloudEnv) (decode : String → Option (List Nat))
    (inspectionId : String) (body : RequestBody) (h : body.inspectionItems = []) :
    rowsToAppend cloud decode inspectionId body =
      [[inspectionId, body.headerData.data, body.headerData.hora,
        body.headerData.departamento, body.headerData.encarregado,
        body.headerData.responsavelQSMS, body.headerData.gerenteContrato,
        body.headerData.unidade, body.headerData.«local», body.headerData.emailCompanhia,
        joinComma (body.participants.map Participant.nome),
        joinComma (body.participants.map Participant.funcao),
        "N/A", "Nenhum item de inspeção foi adicionado.", "", "", "", "Nenhuma",
        body.conclusionData.conclusaoGeral,
        (signaturePipeline cloud decode body.signatures.responsavelInspecao
          (signatureFileName1 inspectionId)).1,
        (signaturePipeline cloud decode body.signatures.responsavelUnidade
          (signatureFileName2 inspectionId)).1]] ∧
    (rowsToAppend cloud decode inspectionId body).length = 1 := by
  rw [rowsToAppend_nil cloud decode inspectionId body h]
  exact ⟨rfl, rfl⟩

/-- Witness for C2: the item-less sample payload yields exactly one row. -/
theorem empty_items_placeholder_witness :
    (rowsToAppend okCloudEnv throwDecode "ID0" sampleBodyNoItems).length = 1 :=
  (empty_items_placeholder okCloudEnv throwDecode "ID0" sampleBodyNoItems rfl).2

/-- C3: a submission with at least one inspection item produces exactly one
row per item, and every row is the fixed header/participant prefix, six
item-specific cells, then the fixed conclusion cell and the two signature
cells resolved once per submission by `signaturePipeline` and fanned out
unchanged to every row. -/
theorem one_row_per_item (cloud : CloudEnv) (decode : String → Option (List Nat))
    (inspectionId : String) (body : RequestBody) (h : body.inspectionItems ≠ []) :
    (rowsToAppend cloud decode inspectionId body).length = body.inspectionItems.length ∧
    ∀ row ∈ rowsToAppend cloud decode inspectionId body, ∃ mid : List String,
      mid.length = 6 ∧
      row = [inspectionId, body.headerData.data, body.headerData.hora,
        body.headerData.departamento, body.headerData.encarregado,
        body.headerData.responsavelQSMS, body.headerData.gerenteContrato,
        body.headerData.unidade, body.headerData.«local», body.headerData.emailCompanhia,
        joinComma (body.participants.map Participant.nome),
        joinComma (body.participants.map Participant.funcao)] ++ mid ++
        [body.conclusionData.conclusaoGeral,
         (signaturePipeline cloud decode body.signatures.responsavelInspecao
           (signatureFileName1 inspectionId)).1,
         (signaturePipeline cloud decode body.signatures.responsavelUnidade
           (signatureFileName2 inspectionId)).1] := by
  rw [rowsToAppend_eq_map cloud decode inspectionId body h]
  constructor
  · simp
  · intro row hrow
    simp only [List.mem_map] at hrow
    obtain ⟨p, _, rfl⟩ := hrow
    exact ⟨[p.2.fato, p.2.recomendacoes, p.2.prazo, p.2.responsavel, p.2.conclusao,
      (evidenceCell p.2 (itemPhotoResult cloud inspectionId p.1 p.2).1).1], rfl, rfl⟩

/-- Witness for C3: the two-item sample payload yields two rows. -/
theorem one_row_per_item_witness :
    (rowsToAppend okCloudEnv throwDecode "ID0" sampleBodyTwoItems).length =
      sampleBodyTwoItems.inspectionItems.length :=
  (one_row_per_item okCloudEnv throwDecode "ID0" sampleBodyTwoItems (by decide)).1

/-- Counterexample for C8: the claimed canonical order lists 22 columns —
inspection id, date, time, department, supervisor, QSMS-responsible,
contract manager, unit, location, notification email, participant names,
participant roles, item sequence, observed fact, recommendations, due date,
responsible, conclusion note, evidence cell, overall conclusion and the two
signature cells — but the rows the handler builds have only 21 cells: there
is no item-sequence column.  For the concrete one-item payload below, whose
item is numbered 7, the single row has the observed fact at index 12 (where
the claim places the item sequence) and the string `7` appears in no cell. -/
theorem canonical_order_counterexample :
    rowsToAppend okCloudEnv throwDecode "ID1" sampleBodyOneItem =
      [["ID1", "2024-05-01", "10:00", "dep", "enc", "qsms", "ger", "uni", "Unit A",
        "mail@x", "p1", "f1", "fato observado", "rec", "2024-06-01", "resp", "conc",
        "Nenhuma", "geral", "Não assinado", "Não assinado"]] ∧
    (∀ row ∈ rowsToAppend okCloudEnv throwDecode "ID1" sampleBodyOneItem,
      row.length = 21 ∧ "7" ∉ row) := by
  constructor
  · decide
  · decide

/-- C8 (amended): every appended row — the placeholder row included — has
exactly 21 cells; every row starts with the canonical header/participant
prefix (inspection id, date, time, department, supervisor,
QSMS-responsible, contract manager, unit, location, notification email,
participant names, participant roles) and ends with the overall conclusion
and the two signature cells; and the row of the item at position `index`
carries, in order, its observed fact, recommendations, due date,
responsible, conclusion note and evidence cell in the six middle columns.
There is no item-sequence column. -/
theorem canonical_order_amended (cloud : CloudEnv) (decode : String → Option (List Nat))
    (inspectionId : String) (body : RequestBody) :
    (∀ row ∈ rowsToAppend cloud decode inspectionId body,
      row.length = 21 ∧
      row.take 12 = [inspectionId, body.headerData.data, body.headerData.hora,
        body.headerData.departamento, body.headerData.encarregado,
        body.headerData.responsavelQSMS, body.headerData.gerenteContrato,
        body.headerData.unidade, body.headerData.«local», body.headerData.emailCompanhia,
        joinComma (body.participants.map Participant.nome),
        joinComma (body.participants.map Participant.funcao)] ∧
      row.drop 18 = [body.conclusionData.conclusaoGeral,
        (signaturePipeline cloud decode body.signatures.responsavelInspecao
          (signatureFileName1 inspectionId)).1,
        (signaturePipeline cloud decode body.signatures.responsavelUnidade
          (signatureFileName2 inspectionId)).1]) ∧
    (∀ index item, body.inspectionItems[index]? = some item →
      (rowsToAppend cloud decode inspectionId body)[index]? =
        some [inspectionId, body.headerData.data, body.headerData.hora,
          body.headerData.departamento, body.headerData.encarregado,
          body.headerData.responsavelQSMS, body.headerData.gerenteContrato,
          body.headerData.unidade, body.headerData.«local», body.headerData.emailCompanhia,
          joinComma (body.participants.map Participant.nome),
          joinComma (body.participants.map Participant.funcao),
          item.fato, item.recomendacoes, item.prazo, item.responsavel, item.conclusao,
          (evidenceCell item (itemPhotoResult cloud inspectionId index item).1).1,
          body.conclusionData.conclusaoGeral,
          (signaturePipeline cloud decode body.signatures.responsavelInspecao
            (signatureFileName1 inspectionId)).1,
          (signaturePipeline cloud decode body.signatures.responsavelUnidade
            (signatureFileName2 inspectionId)).1]) := by
  constructor
  · intro row hrow
    by_cases h : body.inspectionItems = []
    · rw [rowsToAppend_nil cloud decode inspectionId body h] at hrow
      simp only [List.mem_singleton] at hrow
      subst hrow
      exact ⟨rfl, rfl, rfl⟩
    · rw [rowsToAppend_eq_map cloud decode inspectionId body h] at hrow
      simp only [List.mem_map] at hrow
      obtain ⟨p, _, rfl⟩ := hrow
      exact ⟨rfl, rfl, rfl⟩
  · intro index item hitem
    have h : body.inspectionItems ≠ [] := by
      intro hnil
      rw [hnil] at hitem
      simp at hitem
    rw [rowsToAppend_eq_map cloud decode inspectionId body h]
    rw [List.getElem?_map, List.getElem?_enum, hitem]
    rfl

/-- Witness for C8 (amended): the single row of the one-item sample payload,
in the amended 21-column order. -/
theorem canonical_order_amended_witness :
    (rowsToAppend okCloudEnv throwDecode "ID1" sampleBodyOneItem)[0]? =
      some ["ID1", sampleBodyOneItem.headerData.data, sampleBodyOneItem.headerData.hora,
        sampleBodyOneItem.headerData.departamento, sampleBodyOneItem.headerData.encarregado,
        sampleBodyOneItem.headerData.responsavelQSMS,
        sampleBodyOneItem.headerData.gerenteContrato,
        sampleBodyOneItem.headerData.unidade, sampleBodyOneItem.headerData.«local»,
        sampleBodyOneItem.headerData.emailCompanhia,
        joinComma (sampleBodyOneItem.participants.map Participant.nome),
        joinComma (sampleBodyOneItem.participants.map Participant.funcao),
        sampleItemNoFoto.fato, sampleItemNoFoto.recomendacoes, sampleItemNoFoto.prazo,
        sampleItemNoFoto.responsavel, sampleItemNoFoto.conclusao,
        (evidenceCell sampleItemNoFoto (itemPhotoResult okCloudEnv "ID1" 0 sampleItemNoFoto).1).1,
        sampleBodyOneItem.conclusionData.conclusaoGeral,
        (signaturePipeline okCloudEnv throwDecode
          sampleBodyOneItem.signatures.responsavelInspecao (signatureFileName1 "ID1")).1,
        (signaturePipeline okCloudEnv throwDecode
          sampleBodyOneItem.signatures.responsavelUnidade (signatureFileName2 "ID1")).1] :=
  (canonical_order_amended okCloudEnv throwDecode "ID1" sampleBodyOneItem).2 0
    sampleItemNoFoto rfl

/-- Handler environment with configuration present, a successful append, and
a PDF generation that throws. -/
def renderFailEnv : SubmitEnv :=
  { privateKey := some "pk", clientEmail := some "ce", sheetId := some "sheet",
    cloud := okCloudEnv, decode := throwDecode, renderThrows := some "Erro ao gerar PDF",
    emailOk := true, appendResult := .ok (), nowMs := 0 }

/-- Handler environment with configuration present, a working PDF step, a
failing mail delivery, and an append call that throws. -/
def appendFailEnv : SubmitEnv :=
  { privateKey := some "pk", clientEmail := some "ce", sheetId := some "sheet",
    cloud := okCloudEnv, decode := throwDecode, renderThrows := none,
    emailOk := false, appendResult := .error "Planilha indisponível", nowMs := 0 }

/-- Counterexample for C1: the claim says a render failure does not produce
a failure response, but `generateInspectionPDF` is called on line 616
inside the handler's `try`, before the append; when it throws, the `catch`
returns the 500 failure envelope and the append is never reached — here in
an environment whose append call would have succeeded. -/
theorem render_failure_fails_request :
    (POST renderFailEnv sampleBodyNoItems).response = ApiResponse.err "Erro ao gerar PDF" ∧
    (POST renderFailEnv sampleBodyNoItems).appendCalled = false ∧
    renderFailEnv.appendResult = Except.ok () :=
  ⟨rfl, rfl, rfl⟩

/-- C1 (amended): with the required configuration present, (a) when the PDF
step does not throw and the append call throws, the response is the failure
envelope carrying the thrown message, whatever the upload outcomes were;
(b) when the PDF step does not throw and the append succeeds, the response
is the success envelope carrying the inspection id even when the mail
delivery failed; but (c) a PDF-generation exception also produces the
failure envelope and prevents the append, because rendering runs unguarded
before the append inside the handler's `try`. -/
theorem append_failure_drives_response (env : SubmitEnv) (body : RequestBody)
    (hpk : jsTruthy env.privateKey = true) (hce : jsTruthy env.clientEmail = true)
    (hsi : jsTruthy env.sheetId = true) :
    (∀ msg, env.renderThrows = none → env.appendResult = .error msg →
      (POST env body).response = .err msg ∧ (POST env body).appendCalled = true) ∧
    (env.renderThrows = none → env.appendResult = .ok () → env.emailOk = false →
      (POST env body).response =
        .ok "Dados inseridos com sucesso" (inspectionIdOf env.nowMs)) ∧
    (∀ msg, env.renderThrows = some msg →
      (POST env body).response = .err msg ∧ (POST env body).appendCalled = false) := by
  refine ⟨?_, ?_, ?_⟩
  · intro msg hr ha
    simp [POST, hpk, hce, hsi, hr, ha]
  · intro hr ha _
    simp [POST, hpk, hce, hsi, hr, ha]
  · intro msg hr
    simp [POST, hpk, hce, hsi, hr]

/-- Witness for C1: a throwing append call yields the failure envelope with
its message, in an environment where the mail delivery also failed. -/
theorem append_failure_drives_response_witness :
    (POST appendFailEnv sampleBodyNoItems).response = ApiResponse.err "Planilha indisponível" :=
  ((append_failure_drives_response appendFailEnv sampleBodyNoItems (by decide) (by decide)
    (by decide)).1 "Planilha indisponível" rfl rfl).1

/-! Layout lemmas for the pagination claim. -/

/-- One layout step never decreases the page count. -/
lemma layoutStep_pageCount_le (pageHeight : ℚ) (st : LayoutState) (op : LayoutOp) :
    st.pageCount ≤ (layoutStep pageHeight st op).pageCount := by
  cases op with
  | lineOp h =>
    simp only [layoutStep]
    split
    · exact Nat.le_succ _
    · exact Nat.le_refl _
  | gapOp h => exact Nat.le_refl _

/-- Folding layout steps never decreases the page count. -/
lemma layoutFold_pageCount_le (pageHeight : ℚ) (ops : List LayoutOp) (st : LayoutState) :
    st.pageCount ≤ (ops.foldl (layoutStep pageHeight) st).pageCount := by
  induction ops generalizing st with
  | nil => exact Nat.le_refl _
  | cons op rest ih =>
    exact Nat.le_trans (layoutStep_pageCount_le pageHeight st op)
      (ih (layoutStep pageHeight st op))

/-- When folding a list of ops adds no page, the cursor advances by exactly
the total height of the ops. -/
lemma layoutFold_y_of_pageCount_eq (pageHeight : ℚ) (ops : List LayoutOp) (st : LayoutState)
    (hpc : (ops.foldl (layoutStep pageHeight) st).pageCount = st.pageCount) :
    (ops.foldl (layoutStep pageHeight) st).y = st.y + opsHeight ops := by
  induction ops generalizing st with
  | nil => simp [opsHeight]
  | cons op rest ih =>
    have hstep : (layoutStep pageHeight st op).pageCount = st.pageCount := by
      have h1 := layoutStep_pageCount_le pageHeight st op
      have h2 := layoutFold_pageCount_le pageHeight rest (layoutStep pageHeight st op)
      simp only [List.foldl_cons] at hpc
      omega
    have hy' : (layoutStep pageHeight st op).y = st.y + opHeight op := by
      cases op with
      | lineOp h =>
        by_cases hy : st.y > pageHeight - 20
        · exfalso
          simp [layoutStep, hy] at hstep
        · simp [layoutStep, hy, opHeight]
      | gapOp h => simp [layoutStep, opHeight]
    have hpc' : (rest.foldl (layoutStep pageHeight) (layoutStep pageHeight st op)).pageCount =
        (layoutStep pageHeight st op).pageCount := by
      simp only [List.foldl_cons] at hpc
      rw [hstep]
      exact hpc
    have hres := ih (layoutStep pageHeight st op) hpc'
    simp only [List.foldl_cons]
    rw [hres, hy']
    simp only [opsHeight, List.map_cons, List.sum_cons]
    ring

/-- Every line placed during a fold sits within the printable height,
provided the lines already placed do. -/
lemma layoutFold_placed_le (pageHeight : ℚ) (hH : 40 ≤ pageHeight) (ops : List LayoutOp)
    (st : LayoutState) (hst : ∀ y ∈ st.placedYs, y ≤ pageHeight - 20) :
    ∀ y ∈ (ops.foldl (layoutStep pageHeight) st).placedYs, y ≤ pageHeight - 20 := by
  induction ops generalizing st with
  | nil => exact hst
  | cons op rest ih =>
    refine ih (layoutStep pageHeight st op) ?_
    cases op with
    | lineOp h =>
      simp only [layoutStep]
      split
      · intro y hy
        simp only [List.mem_append, List.mem_singleton] at hy
        rcases hy with hy | hy
        · exact hst y hy
        · subst hy
          linarith
      · next hle =>
        intro y hy
        simp only [List.mem_append, List.mem_singleton] at hy
        rcases hy with hy | hy
        · exact hst y hy
        · subst hy
          linarith [not_lt.mp hle]
    | gapOp h => exact hst

/-- C9: in the cursor model of `generateInspectionPDF` — where both
`addText` and `addLink` run the page-overflow check before placing every
wrapped line — every placed line sits within the printable height
`pageHeight - 20`, and whenever some line's accumulated preceding height
pushes the cursor past the printable height (a block sequence whose
cumulative height exceeds one page), the rendered document has at least
two pages. -/
theorem pagination_before_every_line (pageHeight : ℚ) (blocks : List PdfLayoutBlock)
    (hH : 40 ≤ pageHeight) :
    (∀ y ∈ (renderLayout pageHeight blocks).placedYs, y ≤ pageHeight - 20) ∧
    (∀ pre h post, docOps blocks = pre ++ LayoutOp.lineOp h :: post →
      pageHeight - 20 < 20 + opsHeight pre →
      2 ≤ (renderLayout pageHeight blocks).pageCount) := by
  constructor
  · exact layoutFold_placed_le pageHeight hH (docOps blocks) initialLayout (by simp [initialLayout])
  · intro pre h post hsplit hover
    unfold renderLayout
    rw [hsplit, List.foldl_append, List.foldl_cons]
    set st1 := pre.foldl (layoutStep pageHeight) initialLayout with hst1
    rcases Nat.lt_or_ge st1.pageCount 2 with hlt | hge
    · have h1 : 1 ≤ st1.pageCount := layoutFold_pageCount_le pageHeight pre initialLayout
      have hpc : st1.pageCount = initialLayout.pageCount := by
        simp only [initialLayout]
        omega
      have hy : st1.y = 20 + opsHeight pre := by
        have := layoutFold_y_of_pageCount_eq pageHeight pre initialLayout hpc
        rw [← hst1] at this
        simpa [initialLayout] using this
      have hover' : st1.y > pageHeight - 20 := by
        rw [hy]
        linarith
      have hstep : (layoutStep pageHeight st1 (LayoutOp.lineOp h)).pageCount =
          st1.pageCount + 1 := by
        simp [layoutStep, hover']
      calc 2 = st1.pageCount + 1 := by omega
        _ = (layoutStep pageHeight st1 (LayoutOp.lineOp h)).pageCount := hstep.symm
        _ ≤ _ := layoutFold_pageCount_le pageHeight post _
    · calc 2 ≤ st1.pageCount := hge
        _ ≤ (layoutStep pageHeight st1 (LayoutOp.lineOp h)).pageCount :=
          layoutStep_pageCount_le pageHeight st1 _
        _ ≤ _ := layoutFold_pageCount_le pageHeight post _

/-- Witness for C9: one block of five wrapped lines at font size 200 (line
height 80) overflows a 297-high page, so the document has at least two
pages. -/
theorem pagination_before_every_line_witness :
    2 ≤ (renderLayout 297 [{ lineCount := 5, fontSize := 200, isLink := false }]).pageCount := by
  refine (pagination_before_every_line 297
    [{ lineCount := 5, fontSize := 200, isLink := false }] (by norm_num)).2
    (List.replicate 4 (LayoutOp.lineOp 80)) 80 [LayoutOp.gapOp 5] ?_ ?_
  · show docOps _ = _
    simp [docOps, blockOps, List.replicate]
    norm_num
  · simp [opsHeight, opHeight, List.replicate]
    norm_num

end Inspecao
